import Mathlib

/-!
Shallow embedding of `conanfile.py` from the jsocketpp repository.

The file defines a single Conan package class `jsocketppConan` with string
and tuple class attributes, and four methods (`layout`, `build`, `package`,
`package_info`).  The methods only delegate to the external CMake driver
(`cmake_layout`, `CMake.configure`, `CMake.build`, `CMake.install`) and, in
`package_info`, assign `self.cpp_info.libs = ["socket"]`.

The embedding models a method as a pure function from the instance state to
a pair of (the finite trace of delegated driver calls it makes, in order)
and (the updated instance state).  A second, `Except`-based model captures
how Python exceptions raised by the delegated driver calls propagate
through `build` and `package` untouched.
-/

namespace Jsocketpp

/-- Values a class attribute of the manifest can hold: a Python string or a
tuple of strings. -/
inductive AttrValue where
  | str (s : String)
  | tuple (ss : List String)
deriving DecidableEq, Repr

namespace jsocketppConan

/-- `name = "jsocketpp"`. -/
def name : String := "jsocketpp"

/-- `version = "0.1.0"`. -/
def version : String := "0.1.0"

/-- `license = "MIT"`. -/
def license : String := "MIT"

/-- `author = "Your Name <your@email.com>"`. -/
def author : String := "Your Name <your@email.com>"

/-- `url = "https://github.com/yourusername/jsocketpp"`. -/
def url : String := "https://github.com/yourusername/jsocketpp"

/-- `description = "A modern C++ socket library."`. -/
def description : String := "A modern C++ socket library."

/-- `topics = ("socket", "network", "tcp", "udp", "c++")`. -/
def topics : List String := ["socket", "network", "tcp", "udp", "c++"]

/-- `settings = "os", "compiler", "build_type", "arch"`. -/
def settings : List String := ["os", "compiler", "build_type", "arch"]

/-- `generators = "CMakeToolchain", "CMakeDeps"`. -/
def generators : List String := ["CMakeToolchain", "CMakeDeps"]

/-- `exports_sources = "CMakeLists.txt", "src/*", "include/*"`. -/
def exports_sources : List String := ["CMakeLists.txt", "src/*", "include/*"]

/-- All class attributes declared in the body of `jsocketppConan`, in source
order, with their values. -/
def classAttributes : List (String × AttrValue) :=
  [ ("name", AttrValue.str name),
    ("version", AttrValue.str version),
    ("license", AttrValue.str license),
    ("author", AttrValue.str author),
    ("url", AttrValue.str url),
    ("description", AttrValue.str description),
    ("topics", AttrValue.tuple topics),
    ("settings", AttrValue.tuple settings),
    ("generators", AttrValue.tuple generators),
    ("exports_sources", AttrValue.tuple exports_sources) ]

end jsocketppConan

/-- The delegated calls to the external CMake build-system driver that the
manifest's methods can make: `cmake_layout(self)`, `cmake.configure()`,
`cmake.build()`, `cmake.install()`. -/
inductive DriverCall where
  | cmake_layout
  | cmake_configure
  | cmake_build
  | cmake_install
deriving DecidableEq, Repr

/-- The `self.cpp_info` object, of which the manifest only touches `libs`. -/
structure CppInfo where
  libs : List String
deriving DecidableEq, Repr

/-- Mutable state of a `jsocketppConan` instance as visible to its methods:
the class attributes (which an instance method could in principle shadow or
reassign through `self`), the settings valuation chosen by the consumer,
the process environment, and `cpp_info`.  The code never reads
`settingsValues` or `environment`; they are carried so that independence
from them is statable. -/
structure ConanState where
  nameAttr : String
  versionAttr : String
  licenseAttr : String
  authorAttr : String
  urlAttr : String
  descriptionAttr : String
  topicsAttr : List String
  settingsAttr : List String
  generatorsAttr : List String
  exportsSourcesAttr : List String
  settingsValues : List (String × String)
  environment : List (String × String)
  cpp_info : CppInfo
deriving DecidableEq, Repr

/-- `def layout(self): cmake_layout(self)` — one delegated driver call, no
state change. -/
def layout (self : ConanState) : List DriverCall × ConanState :=
  ([DriverCall.cmake_layout], self)

/-- `def build(self): cmake = CMake(self); cmake.configure(); cmake.build()`
— two delegated driver calls in that order, no state change. -/
def build (self : ConanState) : List DriverCall × ConanState :=
  ([DriverCall.cmake_configure, DriverCall.cmake_build], self)

/-- `def package(self): cmake = CMake(self); cmake.install()` — one
delegated driver call, no state change. -/
def package (self : ConanState) : List DriverCall × ConanState :=
  ([DriverCall.cmake_install], self)

/-- `def package_info(self): self.cpp_info.libs = ["socket"]` — no driver
call; the whole `cpp_info.libs` list is reassigned. -/
def package_info (self : ConanState) : List DriverCall × ConanState :=
  ([], { self with cpp_info := CppInfo.mk ["socket"] })

/-- State component of `package_info`, for iteration. -/
def package_info_state (self : ConanState) : ConanState :=
  (package_info self).2

/-- The metadata fields of the state that the spec lists as declared
metadata (name, version, license, author, url, description, topics). -/
def metadataFields (s : ConanState) :
    String × String × String × String × String × String × List String :=
  (s.nameAttr, s.versionAttr, s.licenseAttr, s.authorAttr, s.urlAttr,
    s.descriptionAttr, s.topicsAttr)

/-- Exception-level model of `build`: each delegated driver call either
returns normally or raises an exception of type `ε`; a raised exception
aborts the remaining statements and propagates unchanged, exactly as in
Python. -/
def buildExc {ε : Type} (driver : DriverCall → Except ε Unit) : Except ε Unit :=
  match driver DriverCall.cmake_configure with
  | Except.error e => Except.error e
  | Except.ok _ => driver DriverCall.cmake_build

/-- Exception-level model of `package`: the single delegated `install` call
either returns normally or raises, and the manifest adds nothing. -/
def packageExc {ε : Type} (driver : DriverCall → Except ε Unit) : Except ε Unit :=
  driver DriverCall.cmake_install

/-- C1: every invocation of `package_info` leaves `cpp_info.libs` equal to
the one-element list `["socket"]`, regardless of the prior state. -/
theorem package_info_libs_socket :
    ∀ s : ConanState,
      (package_info s).2.cpp_info.libs = ["socket"] ∧
        ((package_info s).2.cpp_info.libs).length = 1 := by
  intro s
  exact ⟨rfl, rfl⟩

/-- C2: the manifest declares the metadata fields the spec lists, with these
values — name, version, license, author, homepage URL, descriptive text,
topic tags, and a settings tuple whose axes are exactly os, compiler,
build_type and arch — and its full attribute list adds only the two
build-mechanics attributes `generators` and `exports_sources` beyond them. -/
theorem metadata_fields_declared :
    jsocketppConan.name = "jsocketpp" ∧
      jsocketppConan.version = "0.1.0" ∧
      jsocketppConan.license = "MIT" ∧
      jsocketppConan.author = "Your Name <your@email.com>" ∧
      jsocketppConan.url = "https://github.com/yourusername/jsocketpp" ∧
      jsocketppConan.description = "A modern C++ socket library." ∧
      jsocketppConan.topics = ["socket", "network", "tcp", "udp", "c++"] ∧
      jsocketppConan.settings = ["os", "compiler", "build_type", "arch"] ∧
      jsocketppConan.classAttributes.map Prod.fst =
        ["name", "version", "license", "author", "url", "description",
          "topics", "settings", "generators", "exports_sources"] := by
  refine ⟨rfl, rfl, rfl, rfl, rfl, rfl, rfl, rfl, ?_⟩
  rfl

/-- C3: the exported source paths are exactly the build configuration file
`CMakeLists.txt`, the source pattern `src/*` and the headers pattern
`include/*`, and `layout` delegates exactly to the `cmake_layout`
convention. -/
theorem exports_and_layout :
    jsocketppConan.exports_sources = ["CMakeLists.txt", "src/*", "include/*"] ∧
      ∀ s : ConanState, (layout s).1 = [DriverCall.cmake_layout] := by
  exact ⟨rfl, fun _ => rfl⟩

/-- C4: `build` makes exactly the driver calls configure then compile, in
that order, `package` makes exactly the driver call install, and neither
does any other work (the instance state is returned unchanged). -/
theorem build_package_driver_calls :
    ∀ s : ConanState,
      (build s).1 = [DriverCall.cmake_configure, DriverCall.cmake_build] ∧
        (package s).1 = [DriverCall.cmake_install] ∧
        (build s).2 = s ∧ (package s).2 = s := by
  intro s
  exact ⟨rfl, rfl, rfl, rfl⟩

/-- C5: `build` and `package` add no error handling of their own: `build`
raises exactly when `configure` raises, or `configure` returns and
`compile` raises, with the driver's error value unchanged; `package` is
literally the delegated `install` call, so it raises exactly its error. -/
theorem errors_propagate_unchanged :
    ∀ (ε : Type) (driver : DriverCall → Except ε Unit) (e : ε),
      (buildExc driver = Except.error e ↔
          driver DriverCall.cmake_configure = Except.error e ∨
            (driver DriverCall.cmake_configure = Except.ok () ∧
              driver DriverCall.cmake_build = Except.error e)) ∧
        packageExc driver = driver DriverCall.cmake_install := by
  intro ε driver e
  refine ⟨?_, rfl⟩
  rcases h : driver DriverCall.cmake_configure with e₁ | u
  · simp [buildExc, h]
  · cases u
    simp [buildExc, h]

/-- C6: the declared metadata fields are string-and-tuple constants, and
every operation of the manifest leaves all of them unchanged. -/
theorem metadata_frame_unchanged :
    (∀ p ∈ jsocketppConan.classAttributes,
        (∃ v, p.2 = AttrValue.str v) ∨ ∃ vs, p.2 = AttrValue.tuple vs) ∧
      ∀ s : ConanState,
        metadataFields (layout s).2 = metadataFields s ∧
          metadataFields (build s).2 = metadataFields s ∧
          metadataFields (package s).2 = metadataFields s ∧
          metadataFields (package_info s).2 = metadataFields s := by
  constructor
  · intro p hp
    simp only [jsocketppConan.classAttributes, List.mem_cons,
      List.not_mem_nil, or_false] at hp
    rcases hp with h | h | h | h | h | h | h | h | h | h <;> subst h
    · exact Or.inl ⟨_, rfl⟩
    · exact Or.inl ⟨_, rfl⟩
    · exact Or.inl ⟨_, rfl⟩
    · exact Or.inl ⟨_, rfl⟩
    · exact Or.inl ⟨_, rfl⟩
    · exact Or.inl ⟨_, rfl⟩
    · exact Or.inr ⟨_, rfl⟩
    · exact Or.inr ⟨_, rfl⟩
    · exact Or.inr ⟨_, rfl⟩
    · exact Or.inr ⟨_, rfl⟩
  · intro s
    exact ⟨rfl, rfl, rfl, rfl⟩

/-- C7: each of the four operations performs a fixed finite straight-line
trace of delegated calls — the trace is a constant list of length at most
two, independent of the instance state, so there is no branching, looping
or recursion, and each operation is a total function. -/
theorem ops_straight_line :
    ∀ s t : ConanState,
      (layout s).1 = [DriverCall.cmake_layout] ∧
        (build s).1 = [DriverCall.cmake_configure, DriverCall.cmake_build] ∧
        (package s).1 = [DriverCall.cmake_install] ∧
        (package_info s).1 = [] ∧
        (layout s).1 = (layout t).1 ∧ (build s).1 = (build t).1 ∧
        (package s).1 = (package t).1 ∧
        (package_info s).1 = (package_info t).1 ∧
        (layout s).1.length ≤ 2 ∧ (build s).1.length ≤ 2 ∧
        (package s).1.length ≤ 2 ∧ (package_info s).1.length ≤ 2 := by
  intro s t
  refine ⟨rfl, rfl, rfl, rfl, rfl, rfl, rfl, rfl, ?_, ?_, ?_, ?_⟩ <;>
    simp [layout, build, package, package_info]

/-- C8: `package_info` overwrites the whole `cpp_info.libs` list: it is
idempotent on the state, and after any positive number of iterated calls,
whatever `cpp_info.libs` held beforehand, it equals `["socket"]`. -/
theorem package_info_idempotent_overwrites :
    ∀ (s : ConanState) (n : ℕ),
      package_info_state (package_info_state s) = package_info_state s ∧
        (package_info_state^[n + 1] s).cpp_info.libs = ["socket"] := by
  intro s n
  refine ⟨rfl, ?_⟩
  rw [Function.iterate_succ_apply']
  rfl

/-- C9: `package_info` is deterministic and environment-independent: for
any two instance states — in particular any two process environments and
any two settings valuations — the resulting `cpp_info` is the same, namely
`["socket"]`. -/
theorem package_info_env_independent :
    ∀ s1 s2 : ConanState,
      (package_info s1).2.cpp_info = (package_info s2).2.cpp_info ∧
        (package_info s1).2.cpp_info = CppInfo.mk ["socket"] := by
  intro s1 s2
  exact ⟨rfl, rfl⟩

/-- C10: the manifest declares exactly the two generators `CMakeToolchain`
and `CMakeDeps`, as the `generators` class attribute. -/
theorem generators_declared :
    jsocketppConan.generators = ["CMakeToolchain", "CMakeDeps"] ∧
      jsocketppConan.generators.length = 2 ∧
      ("generators", AttrValue.tuple ["CMakeToolchain", "CMakeDeps"])
        ∈ jsocketppConan.classAttributes := by
  refine ⟨rfl, rfl, ?_⟩
  simp [jsocketppConan.classAttributes, jsocketppConan.generators]

end Jsocketpp
